import Mathlib

/-
  Shallow embedding of the presigned-upload-URL service (src/main.go).

  The program is a single HTTP handler `GetUploadURLHandler` plus a signing
  wrapper `GeneratePresignedURL` and two envelope helpers `Error`/`Success`.
  External effects are made explicit:
    - the request body arrives either as a JSON value or as unparseable bytes
      carrying the decoder error message (`RawBody`);
    - `time.Now()` is modelled by nanosecond counters (`now1` at the handler
      call site on line 65, `now2` inside the signer on line 138);
    - the environment variables AWS_BUCKET / AWS_REGION and the outcome of the
      AWS SDK calls (`session.NewSession`, `req.Presign`) are fields of a
      `World` / `SignerWorld` record.
-/

namespace AwsSignedUrl

/-- JSON values, as seen after lexing by the Go standard library decoder.
Numbers are restricted to integers, which is all the program manipulates. -/
inductive Json where
  | null : Json
  | bool (b : Bool) : Json
  | num (n : Int) : Json
  | str (s : String) : Json
  | arr (elems : List Json) : Json
  | obj (fields : List (String × Json)) : Json

/-- A request body: either bytes that are not valid JSON (the constructor
carries the message of the resulting decoder error) or a JSON value. -/
inductive RawBody where
  | malformed (msg : String) : RawBody
  | json (v : Json) : RawBody

/-- Go struct GeneratePresignedURLBody (src/main.go lines 34-36). -/
structure GeneratePresignedURLBody where
  ContentLength : Int
  deriving DecidableEq

def int64Max : Int := 9223372036854775807

def int64Min : Int := -9223372036854775808

/-- ASCII lowercasing of one character, as done by encoding/json when it
matches incoming object keys against struct field tags. -/
def foldChar (c : Char) : Char :=
  if 'A' ≤ c ∧ c ≤ 'Z' then Char.ofNat (c.toNat + 32) else c

/-- ASCII case folding of a key name: encoding/json accepts a case-insensitive
match between an incoming key and the json tag of a struct field. -/
def foldName (s : String) : String := String.mk (s.data.map foldChar)

/-- Decoding one JSON value into the int64 field content_length. -/
def decodeContentLength (v : Json) : Except String Int :=
  match v with
  | Json.num n =>
      if int64Min ≤ n ∧ n ≤ int64Max then Except.ok n
      else Except.error "json: cannot unmarshal number into Go struct field GeneratePresignedURLBody.content_length of type int64"
  | _ => Except.error "json: cannot unmarshal value into Go struct field GeneratePresignedURLBody.content_length of type int64"

/-- Treatment of a single object key by the decoder: a key whose
ASCII-folded name matches the tag content_length is decoded into the field,
overwriting the accumulated value (so the last matching occurrence wins);
every other key is ignored. -/
def decodeStep (acc : GeneratePresignedURLBody) (kv : String × Json) :
    Except String GeneratePresignedURLBody :=
  if foldName kv.1 = "content_length" then
    (decodeContentLength kv.2).map (fun n => ⟨n⟩)
  else Except.ok acc

/-- Decoding a JSON value into GeneratePresignedURLBody, following
encoding/json semantics for a one-field struct: null leaves the zero value,
a non-object is a type error, and an object is decoded key by key with
decodeStep. -/
def decodeBodyJson (v : Json) : Except String GeneratePresignedURLBody :=
  match v with
  | Json.null => Except.ok ⟨0⟩
  | Json.obj fields => fields.foldlM decodeStep ⟨0⟩
  | _ => Except.error "json: cannot unmarshal value into Go value of type main.GeneratePresignedURLBody"

/-- The json.NewDecoder(r.Body).Decode step of the handler (line 51). -/
def decodeBody : RawBody → Except String GeneratePresignedURLBody
  | RawBody.malformed msg => Except.error msg
  | RawBody.json v => decodeBodyJson v

/-- Nanoseconds per second; Go durations and times count nanoseconds. -/
def nsPerSecond : Nat := 1000000000

/-- Go constant time.Minute, in nanoseconds. -/
def timeMinute : Nat := 60 * nsPerSecond

/-- Left-pad a decimal rendering with zeros, as the reference layout
2006-01-02-15-04-05 does for each component. -/
def padNum (width : Nat) (n : Nat) : String :=
  let s := toString n
  String.mk (List.replicate (width - s.length) '0') ++ s

/-- Civil date (year, month, day) from a count of days since 1970-01-01,
the standard era-based conversion used by calendar libraries. -/
def civilFromDays (days : Nat) : Nat × Nat × Nat :=
  let z := days + 719468
  let era := z / 146097
  let doe := z % 146097
  let yoe := (doe - doe / 1460 + doe / 36524 - doe / 146096) / 365
  let doy := doe - (365 * yoe + yoe / 4 - yoe / 100)
  let mp := (5 * doy + 2) / 153
  let d := doy - (153 * mp + 2) / 5 + 1
  let m := if mp < 10 then mp + 3 else mp - 9
  let y := yoe + era * 400
  (if m ≤ 2 then y + 1 else y, m, d)

/-- time.Time.Format with layout 2006-01-02-15-04-05, applied to a time
given in whole seconds since the epoch. -/
def formatSeconds (s : Nat) : String :=
  let days := s / 86400
  let rem := s % 86400
  let ymd := civilFromDays days
  padNum 4 ymd.1 ++ "-" ++ padNum 2 ymd.2.1 ++ "-" ++ padNum 2 ymd.2.2 ++ "-" ++
    padNum 2 (rem / 3600) ++ "-" ++ padNum 2 ((rem % 3600) / 60) ++ "-" ++
    padNum 2 (rem % 60)

/-- time.Now().Format(2006-01-02-15-04-05) for a clock reading of t
nanoseconds since the epoch: the layout has second resolution, so the
reading is truncated to whole seconds first. -/
def format2006 (t : Nat) : String := formatSeconds (t / nsPerSecond)

/-- Go struct GeneratePresignedURLResponse (src/main.go lines 38-46).
ExpirationTime is a time.Time, modelled in nanoseconds since the epoch. -/
structure GeneratePresignedURLResponse where
  Method : String
  PreAssignedURL : String
  ExpirationTime : Nat
  FileName : String
  Host : String
  Details : List String
  ObjectUrl : String
  deriving DecidableEq

/-- Go struct GeneratePresignedURLParam (src/main.go lines 95-101).
Timout is a time.Duration, i.e. a count of nanoseconds. -/
structure GeneratePresignedURLParam where
  FileName : String
  Timout : Nat
  ContentLength : Int
  Bucket : String
  ContentType : String
  deriving DecidableEq

/-- Values stored in the response maps produced by Error and Success. -/
inductive RVal where
  | bool (b : Bool) : RVal
  | str (s : String) : RVal
  | data (d : GeneratePresignedURLResponse) : RVal
  deriving DecidableEq

/-- Helper Error (src/main.go lines 158-167): the error key is added only
when the Go error is non-nil; err carries its message when present. -/
def Error (message : String) (err : Option String) : List (String × RVal) :=
  match err with
  | none => [("success", RVal.bool false), ("message", RVal.str message)]
  | some e =>
      [("success", RVal.bool false), ("message", RVal.str message),
       ("error", RVal.str e)]

/-- Helper Success (src/main.go lines 169-175). -/
def Success (message : String) (d : GeneratePresignedURLResponse) :
    List (String × RVal) :=
  [("success", RVal.bool true), ("message", RVal.str message),
   ("data", RVal.data d)]

/-- The ambient state seen by GeneratePresignedURL: the AWS_REGION variable,
whether session.NewSession and req.Presign fail, the signed URL string
req.Presign would produce, and the time.Now() reading of line 138. -/
structure SignerWorld where
  regionEnv : String
  sessionFails : Bool
  presignFails : Bool
  presignURL : String
  now2 : Nat
  deriving DecidableEq

/-- GeneratePresignedURL (src/main.go lines 103-148). -/
def GeneratePresignedURL (w : SignerWorld) (param : GeneratePresignedURLParam) :
    Except String GeneratePresignedURLResponse :=
  if w.sessionFails then Except.error "failed to create AWS session"
  else if w.presignFails then Except.error "failed to sign request"
  else
    let host := param.Bucket ++ ".s3.amazonaws.com"
    Except.ok
      { Method := "PUT"
        PreAssignedURL := w.presignURL
        FileName := param.FileName
        ExpirationTime := w.now2 + param.Timout
        Host := host
        Details :=
          ["Use the pre-signed URL to upload the file",
           "The URL will expire after " ++ toString param.Timout ++ " minutes",
           "The maximum upload size is " ++ toString param.ContentLength ++ " bytes"]
        ObjectUrl := "https://" ++ host ++ "/" ++ param.FileName }

/-- An HTTP response as produced by SendResponse: status code plus the
JSON-encoded envelope map. -/
structure HttpResponse where
  status : Nat
  body : List (String × RVal)
  deriving DecidableEq

/-- Local constant MAX_UPLOAD_SIZE of the handler (line 56). -/
def MAX_UPLOAD_SIZE : Int := 1 * 1024 * 1024

/-- GetUploadURLHandler (src/main.go lines 48-91), abstracted over the signer
function it delegates to; now1 is the time.Now() reading of line 65 and
bucketEnv the value of the AWS_BUCKET variable. -/
def GetUploadURLHandlerWith
    (signerF : GeneratePresignedURLParam → Except String GeneratePresignedURLResponse)
    (now1 : Nat) (bucketEnv : String) (raw : RawBody) : HttpResponse :=
  match decodeBody raw with
  | Except.error err => ⟨400, Error "invalid request body" (some err)⟩
  | Except.ok body =>
      if body.ContentLength ≤ 0 ∨ body.ContentLength > MAX_UPLOAD_SIZE then
        ⟨400, Error "invalid content length" none⟩
      else
        let fileName := format2006 now1 ++ ".png"
        let uploadTimeout := 10 * timeMinute
        let bucketName := bucketEnv
        match signerF
            ⟨fileName, uploadTimeout, body.ContentLength, bucketName, "image/png"⟩ with
        | Except.error err =>
            ⟨500, Error "failed to create AWS session" (some err)⟩
        | Except.ok resp => ⟨200, Success "pre-signed URL generated" resp⟩

/-- The full ambient state of one request: handler clock, AWS_BUCKET, and
the signer state. -/
structure World where
  now1 : Nat
  bucketEnv : String
  signer : SignerWorld
  deriving DecidableEq

/-- GetUploadURLHandler with its signer instantiated to the real
GeneratePresignedURL of the program. -/
def GetUploadURLHandler (w : World) (raw : RawBody) : HttpResponse :=
  GetUploadURLHandlerWith (GeneratePresignedURL w.signer) w.now1 w.bucketEnv raw

/-- Value of a key in a response map. -/
def lookupKey (k : String) (m : List (String × RVal)) : Option RVal :=
  match m.find? (fun kv => kv.1 == k) with
  | some kv => some kv.2
  | none => none

/-- The success field of a response envelope. -/
def HttpResponse.successField (r : HttpResponse) : Option RVal :=
  lookupKey "success" r.body

/-- The error field of a response envelope. -/
def HttpResponse.errorField (r : HttpResponse) : Option RVal :=
  lookupKey "error" r.body

/-- The data field of a response envelope, when it holds a descriptor. -/
def HttpResponse.dataField (r : HttpResponse) :
    Option GeneratePresignedURLResponse :=
  match lookupKey "data" r.body with
  | some (RVal.data d) => some d
  | _ => none

/-! Equation lemmas describing the handler on each of its four paths. -/

theorem handlerWith_decode_error
    (f : GeneratePresignedURLParam → Except String GeneratePresignedURLResponse)
    (now1 : Nat) (bucketEnv : String) (raw : RawBody) (e : String)
    (h : decodeBody raw = Except.error e) :
    GetUploadURLHandlerWith f now1 bucketEnv raw
      = ⟨400, Error "invalid request body" (some e)⟩ := by
  unfold GetUploadURLHandlerWith
  rw [h]

theorem handlerWith_bad_length
    (f : GeneratePresignedURLParam → Except String GeneratePresignedURLResponse)
    (now1 : Nat) (bucketEnv : String) (raw : RawBody)
    (body : GeneratePresignedURLBody)
    (h : decodeBody raw = Except.ok body)
    (hbad : body.ContentLength ≤ 0 ∨ body.ContentLength > MAX_UPLOAD_SIZE) :
    GetUploadURLHandlerWith f now1 bucketEnv raw
      = ⟨400, Error "invalid content length" none⟩ := by
  unfold GetUploadURLHandlerWith
  rw [h]
  exact if_pos hbad

theorem handlerWith_signer
    (f : GeneratePresignedURLParam → Except String GeneratePresignedURLResponse)
    (now1 : Nat) (bucketEnv : String) (raw : RawBody)
    (body : GeneratePresignedURLBody)
    (h : decodeBody raw = Except.ok body)
    (hlo : 0 < body.ContentLength) (hhi : body.ContentLength ≤ MAX_UPLOAD_SIZE) :
    GetUploadURLHandlerWith f now1 bucketEnv raw
      = match f ⟨format2006 now1 ++ ".png", 10 * timeMinute, body.ContentLength,
                 bucketEnv, "image/png"⟩ with
        | Except.error err => ⟨500, Error "failed to create AWS session" (some err)⟩
        | Except.ok resp => ⟨200, Success "pre-signed URL generated" resp⟩ := by
  unfold GetUploadURLHandlerWith
  rw [h]
  exact if_neg (by rintro (hb | hb) <;> omega)

theorem generate_ok (sw : SignerWorld) (param : GeneratePresignedURLParam)
    (hsess : sw.sessionFails = false) (hsign : sw.presignFails = false) :
    GeneratePresignedURL sw param = Except.ok
      { Method := "PUT"
        PreAssignedURL := sw.presignURL
        FileName := param.FileName
        ExpirationTime := sw.now2 + param.Timout
        Host := param.Bucket ++ ".s3.amazonaws.com"
        Details :=
          ["Use the pre-signed URL to upload the file",
           "The URL will expire after " ++ toString param.Timout ++ " minutes",
           "The maximum upload size is " ++ toString param.ContentLength ++ " bytes"]
        ObjectUrl := "https://" ++ (param.Bucket ++ ".s3.amazonaws.com") ++ "/"
          ++ param.FileName } := by
  unfold GeneratePresignedURL
  rw [hsess, hsign]
  rfl

theorem handler_success_case (w : World) (raw : RawBody)
    (body : GeneratePresignedURLBody)
    (hdec : decodeBody raw = Except.ok body)
    (hlo : 0 < body.ContentLength) (hhi : body.ContentLength ≤ MAX_UPLOAD_SIZE)
    (hsess : w.signer.sessionFails = false)
    (hsign : w.signer.presignFails = false) :
    GetUploadURLHandler w raw = ⟨200, Success "pre-signed URL generated"
      { Method := "PUT"
        PreAssignedURL := w.signer.presignURL
        FileName := format2006 w.now1 ++ ".png"
        ExpirationTime := w.signer.now2 + 10 * timeMinute
        Host := w.bucketEnv ++ ".s3.amazonaws.com"
        Details :=
          ["Use the pre-signed URL to upload the file",
           "The URL will expire after " ++ toString (10 * timeMinute) ++ " minutes",
           "The maximum upload size is " ++ toString body.ContentLength ++ " bytes"]
        ObjectUrl := "https://" ++ (w.bucketEnv ++ ".s3.amazonaws.com") ++ "/"
          ++ (format2006 w.now1 ++ ".png") }⟩ := by
  unfold GetUploadURLHandler
  rw [handlerWith_signer _ _ _ _ _ hdec hlo hhi]
  rw [generate_ok _ _ hsess hsign]

theorem generate_session_fail (sw : SignerWorld)
    (param : GeneratePresignedURLParam) (h : sw.sessionFails = true) :
    GeneratePresignedURL sw param
      = Except.error "failed to create AWS session" := by
  unfold GeneratePresignedURL
  rw [h]
  rfl

theorem generate_presign_fail (sw : SignerWorld)
    (param : GeneratePresignedURLParam) (h1 : sw.sessionFails = false)
    (h2 : sw.presignFails = true) :
    GeneratePresignedURL sw param = Except.error "failed to sign request" := by
  unfold GeneratePresignedURL
  rw [h1, h2]
  rfl

/-! The claims. -/

/-- C1: for every request whose JSON body decodes to an integer
content_length with content_length ≤ 0 or content_length > 1048576, the
handler responds with HTTP status 400 and an envelope whose success field is
false, and the signer is never invoked for that request (the response is the
same whatever signer function the handler is given). -/
theorem invalid_content_length_rejected
    (f g : GeneratePresignedURLParam → Except String GeneratePresignedURLResponse)
    (now1 : Nat) (bucketEnv : String) (raw : RawBody)
    (body : GeneratePresignedURLBody)
    (hdec : decodeBody raw = Except.ok body)
    (hbad : body.ContentLength ≤ 0 ∨ body.ContentLength > MAX_UPLOAD_SIZE) :
    (GetUploadURLHandlerWith f now1 bucketEnv raw).status = 400 ∧
    (GetUploadURLHandlerWith f now1 bucketEnv raw).successField
      = some (RVal.bool false) ∧
    GetUploadURLHandlerWith f now1 bucketEnv raw
      = GetUploadURLHandlerWith g now1 bucketEnv raw := by
  have h1 := handlerWith_bad_length f now1 bucketEnv raw body hdec hbad
  have h2 := handlerWith_bad_length g now1 bucketEnv raw body hdec hbad
  rw [h1, h2]
  exact ⟨rfl, rfl, rfl⟩

theorem invalid_content_length_rejected_witness :
    (GetUploadURLHandlerWith (fun _ => Except.error "no signer") 0 "bucket"
        (RawBody.json (Json.obj [("content_length", Json.num 2000000)]))).status
      = 400 ∧
    (GetUploadURLHandlerWith (fun _ => Except.error "no signer") 0 "bucket"
        (RawBody.json (Json.obj [("content_length", Json.num 2000000)]))).successField
      = some (RVal.bool false) ∧
    GetUploadURLHandlerWith (fun _ => Except.error "no signer") 0 "bucket"
        (RawBody.json (Json.obj [("content_length", Json.num 2000000)]))
      = GetUploadURLHandlerWith (fun _ => Except.error "other signer") 0 "bucket"
        (RawBody.json (Json.obj [("content_length", Json.num 2000000)])) :=
  invalid_content_length_rejected _ _ 0 "bucket" _ ⟨2000000⟩ rfl
    (Or.inr (by decide))

/-- C2: for every request whose body decodes to a content_length in
(0, 1048576], and assuming the signer call succeeds, the handler responds
with HTTP status 200 and success=true, and the returned descriptor has a
file_name ending in .png and an object_url equal to
https:// ++ host ++ / ++ file_name built from its own host and file_name
fields. -/
theorem valid_request_success (w : World) (raw : RawBody)
    (body : GeneratePresignedURLBody)
    (hdec : decodeBody raw = Except.ok body)
    (hlo : 0 < body.ContentLength) (hhi : body.ContentLength ≤ MAX_UPLOAD_SIZE)
    (hsess : w.signer.sessionFails = false)
    (hsign : w.signer.presignFails = false) :
    (GetUploadURLHandler w raw).status = 200 ∧
    (GetUploadURLHandler w raw).successField = some (RVal.bool true) ∧
    ∃ d, (GetUploadURLHandler w raw).dataField = some d ∧
      (∃ stem, d.FileName = stem ++ ".png") ∧
      d.ObjectUrl = "https://" ++ d.Host ++ "/" ++ d.FileName := by
  rw [handler_success_case w raw body hdec hlo hhi hsess hsign]
  exact ⟨rfl, rfl, _, rfl, ⟨format2006 w.now1, rfl⟩, rfl⟩

theorem valid_request_success_witness :
    (GetUploadURLHandler ⟨0, "bucket", ⟨"region", false, false, "signed-url", 0⟩⟩
        (RawBody.json (Json.obj [("content_length", Json.num 5)]))).status = 200 ∧
    (GetUploadURLHandler ⟨0, "bucket", ⟨"region", false, false, "signed-url", 0⟩⟩
        (RawBody.json (Json.obj [("content_length", Json.num 5)]))).successField
      = some (RVal.bool true) ∧
    ∃ d, (GetUploadURLHandler ⟨0, "bucket", ⟨"region", false, false, "signed-url", 0⟩⟩
        (RawBody.json (Json.obj [("content_length", Json.num 5)]))).dataField = some d ∧
      (∃ stem, d.FileName = stem ++ ".png") ∧
      d.ObjectUrl = "https://" ++ d.Host ++ "/" ++ d.FileName :=
  valid_request_success _ _ ⟨5⟩ rfl (by decide) (by decide) rfl rfl

/-- C3: for every request whose body fails to decode as JSON of the shape
with an integer content_length field, the handler responds with HTTP status
400 and an envelope with success=false whose error field is populated with
the decode error message. -/
theorem malformed_body_rejected (w : World) (raw : RawBody) (e : String)
    (hdec : decodeBody raw = Except.error e) :
    (GetUploadURLHandler w raw).status = 400 ∧
    (GetUploadURLHandler w raw).successField = some (RVal.bool false) ∧
    (GetUploadURLHandler w raw).errorField = some (RVal.str e) := by
  unfold GetUploadURLHandler
  rw [handlerWith_decode_error _ _ _ _ _ hdec]
  exact ⟨rfl, rfl, rfl⟩

theorem malformed_body_rejected_witness :
    (GetUploadURLHandler ⟨0, "bucket", ⟨"region", false, false, "signed-url", 0⟩⟩
        (RawBody.malformed "invalid character o in literal")).status = 400 ∧
    (GetUploadURLHandler ⟨0, "bucket", ⟨"region", false, false, "signed-url", 0⟩⟩
        (RawBody.malformed "invalid character o in literal")).successField
      = some (RVal.bool false) ∧
    (GetUploadURLHandler ⟨0, "bucket", ⟨"region", false, false, "signed-url", 0⟩⟩
        (RawBody.malformed "invalid character o in literal")).errorField
      = some (RVal.str "invalid character o in literal") :=
  malformed_body_rejected _ _ _ rfl

/-- C4: whenever the signer fails, whether session construction or request
signing fails, the handler responds with HTTP status 500 and an envelope
with success=false whose error field is non-empty and carries the message of
the error the signer returned. -/
theorem signer_failure_500 (w : World) (raw : RawBody)
    (body : GeneratePresignedURLBody)
    (hdec : decodeBody raw = Except.ok body)
    (hlo : 0 < body.ContentLength) (hhi : body.ContentLength ≤ MAX_UPLOAD_SIZE)
    (hfail : w.signer.sessionFails = true ∨ w.signer.presignFails = true) :
    (GetUploadURLHandler w raw).status = 500 ∧
    (GetUploadURLHandler w raw).successField = some (RVal.bool false) ∧
    ∃ e, (GetUploadURLHandler w raw).errorField = some (RVal.str e) ∧ e ≠ "" ∧
      GeneratePresignedURL w.signer
          ⟨format2006 w.now1 ++ ".png", 10 * timeMinute, body.ContentLength,
           w.bucketEnv, "image/png"⟩
        = Except.error e := by
  unfold GetUploadURLHandler
  rw [handlerWith_signer _ _ _ _ _ hdec hlo hhi]
  by_cases hs : w.signer.sessionFails = true
  · rw [generate_session_fail _ _ hs]
    exact ⟨rfl, rfl, "failed to create AWS session", rfl, by decide, rfl⟩
  · have hs2 : w.signer.sessionFails = false := by
      cases hb : w.signer.sessionFails
      · rfl
      · exact absurd hb hs
    have hp : w.signer.presignFails = true := by
      rcases hfail with h | h
      · exact absurd h hs
      · exact h
    rw [generate_presign_fail _ _ hs2 hp]
    exact ⟨rfl, rfl, "failed to sign request", rfl, by decide, rfl⟩

theorem signer_failure_500_witness :
    (GetUploadURLHandler ⟨0, "bucket", ⟨"region", false, true, "signed-url", 0⟩⟩
        (RawBody.json (Json.obj [("content_length", Json.num 5)]))).status = 500 ∧
    (GetUploadURLHandler ⟨0, "bucket", ⟨"region", false, true, "signed-url", 0⟩⟩
        (RawBody.json (Json.obj [("content_length", Json.num 5)]))).successField
      = some (RVal.bool false) ∧
    ∃ e, (GetUploadURLHandler ⟨0, "bucket", ⟨"region", false, true, "signed-url", 0⟩⟩
        (RawBody.json (Json.obj [("content_length", Json.num 5)]))).errorField
      = some (RVal.str e) ∧ e ≠ "" ∧
      GeneratePresignedURL ⟨"region", false, true, "signed-url", 0⟩
          ⟨format2006 0 ++ ".png", 10 * timeMinute, (5 : Int), "bucket",
           "image/png"⟩
        = Except.error e :=
  signer_failure_500 ⟨0, "bucket", ⟨"region", false, true, "signed-url", 0⟩⟩ _ ⟨5⟩
    rfl (by decide) (by decide) (Or.inr rfl)

/-- C5: for every successful request, the expiration_time of the returned
descriptor equals the wall-clock time at which the request was processed
plus exactly 10 minutes, within a tolerance of 2 seconds; now1 is the
processing time, and the signer clock now2 is assumed to read at most
2 seconds later. -/
theorem expiration_is_now_plus_ten_minutes (w : World) (raw : RawBody)
    (body : GeneratePresignedURLBody)
    (hdec : decodeBody raw = Except.ok body)
    (hlo : 0 < body.ContentLength) (hhi : body.ContentLength ≤ MAX_UPLOAD_SIZE)
    (hsess : w.signer.sessionFails = false)
    (hsign : w.signer.presignFails = false)
    (hmono : w.now1 ≤ w.signer.now2)
    (hdrift : w.signer.now2 ≤ w.now1 + 2 * nsPerSecond) :
    ∃ d, (GetUploadURLHandler w raw).dataField = some d ∧
      w.now1 + 10 * timeMinute ≤ d.ExpirationTime + 2 * nsPerSecond ∧
      d.ExpirationTime ≤ w.now1 + 10 * timeMinute + 2 * nsPerSecond := by
  rw [handler_success_case w raw body hdec hlo hhi hsess hsign]
  refine ⟨_, rfl, ?_, ?_⟩
  · show w.now1 + 10 * timeMinute ≤ w.signer.now2 + 10 * timeMinute + 2 * nsPerSecond
    omega
  · show w.signer.now2 + 10 * timeMinute ≤ w.now1 + 10 * timeMinute + 2 * nsPerSecond
    omega

theorem expiration_is_now_plus_ten_minutes_witness :
    ∃ d, (GetUploadURLHandler
        ⟨0, "bucket", ⟨"region", false, false, "signed-url", nsPerSecond⟩⟩
        (RawBody.json (Json.obj [("content_length", Json.num 5)]))).dataField
      = some d ∧
      0 + 10 * timeMinute ≤ d.ExpirationTime + 2 * nsPerSecond ∧
      d.ExpirationTime ≤ 0 + 10 * timeMinute + 2 * nsPerSecond :=
  expiration_is_now_plus_ten_minutes
    ⟨0, "bucket", ⟨"region", false, false, "signed-url", nsPerSecond⟩⟩ _ ⟨5⟩
    rfl (by decide) (by decide) rfl rfl (Nat.zero_le _) (by decide)

/-- C6: for every successful request, the host field of the returned
descriptor equals the configured bucket name followed by
.s3.amazonaws.com, independently of the content_length value of the
request. -/
theorem host_is_bucket_domain (w : World) (raw : RawBody)
    (body : GeneratePresignedURLBody)
    (hdec : decodeBody raw = Except.ok body)
    (hlo : 0 < body.ContentLength) (hhi : body.ContentLength ≤ MAX_UPLOAD_SIZE)
    (hsess : w.signer.sessionFails = false)
    (hsign : w.signer.presignFails = false) :
    ∃ d, (GetUploadURLHandler w raw).dataField = some d ∧
      d.Host = w.bucketEnv ++ ".s3.amazonaws.com" := by
  rw [handler_success_case w raw body hdec hlo hhi hsess hsign]
  exact ⟨_, rfl, rfl⟩

theorem host_is_bucket_domain_witness :
    ∃ d, (GetUploadURLHandler
        ⟨0, "bucket", ⟨"region", false, false, "signed-url", 0⟩⟩
        (RawBody.json (Json.obj [("content_length", Json.num 1048576)]))).dataField
      = some d ∧
      d.Host = "bucket" ++ ".s3.amazonaws.com" :=
  host_is_bucket_domain
    ⟨0, "bucket", ⟨"region", false, false, "signed-url", 0⟩⟩ _ ⟨1048576⟩
    rfl (by decide) (by decide) rfl rfl

/-- C7: the generated file_name is a pure function of the wall-clock time
truncated to the second: it equals the second-resolution timestamp format
followed by the fixed .png extension, with no user-supplied name, so two
successful requests processed within the same wall-clock second receive the
same file_name whatever their bodies or signer states. -/
theorem filename_same_second_collision (w v : World) (raw rawv : RawBody)
    (body bodyv : GeneratePresignedURLBody)
    (hdec : decodeBody raw = Except.ok body)
    (hlo : 0 < body.ContentLength) (hhi : body.ContentLength ≤ MAX_UPLOAD_SIZE)
    (hsess : w.signer.sessionFails = false)
    (hsign : w.signer.presignFails = false)
    (hdecv : decodeBody rawv = Except.ok bodyv)
    (hlov : 0 < bodyv.ContentLength)
    (hhiv : bodyv.ContentLength ≤ MAX_UPLOAD_SIZE)
    (hsessv : v.signer.sessionFails = false)
    (hsignv : v.signer.presignFails = false)
    (hsec : w.now1 / nsPerSecond = v.now1 / nsPerSecond) :
    ∃ d dv, (GetUploadURLHandler w raw).dataField = some d ∧
      (GetUploadURLHandler v rawv).dataField = some dv ∧
      d.FileName = formatSeconds (w.now1 / nsPerSecond) ++ ".png" ∧
      dv.FileName = d.FileName := by
  rw [handler_success_case w raw body hdec hlo hhi hsess hsign,
    handler_success_case v rawv bodyv hdecv hlov hhiv hsessv hsignv]
  refine ⟨_, _, rfl, rfl, rfl, ?_⟩
  show format2006 v.now1 ++ ".png" = format2006 w.now1 ++ ".png"
  unfold format2006
  rw [← hsec]

theorem filename_same_second_collision_witness :
    ∃ d dv, (GetUploadURLHandler
        ⟨0, "bucket", ⟨"region", false, false, "signed-url", 0⟩⟩
        (RawBody.json (Json.obj [("content_length", Json.num 5)]))).dataField
      = some d ∧
      (GetUploadURLHandler
        ⟨999999999, "other-bucket", ⟨"region", false, false, "other-url", 7⟩⟩
        (RawBody.json (Json.obj [("content_length", Json.num 9)]))).dataField
      = some dv ∧
      d.FileName = formatSeconds (0 / nsPerSecond) ++ ".png" ∧
      dv.FileName = d.FileName :=
  filename_same_second_collision
    ⟨0, "bucket", ⟨"region", false, false, "signed-url", 0⟩⟩
    ⟨999999999, "other-bucket", ⟨"region", false, false, "other-url", 7⟩⟩ _ _
    ⟨5⟩ ⟨9⟩ rfl (by decide) (by decide) rfl rfl rfl (by decide) (by decide)
    rfl rfl (by decide)

/-- C10: a request rejected for invalid content length gets a 400 body that
holds only the success and message keys and no error key, because the Error
constructor is invoked with a nil error, while a decode failure always
yields a body carrying the error key. -/
theorem invalid_length_has_no_error_key
    (f : GeneratePresignedURLParam → Except String GeneratePresignedURLResponse)
    (now1 : Nat) (bucketEnv : String) (raw : RawBody) :
    (∀ body, decodeBody raw = Except.ok body →
      body.ContentLength ≤ 0 ∨ body.ContentLength > MAX_UPLOAD_SIZE →
      (GetUploadURLHandlerWith f now1 bucketEnv raw).body
        = [("success", RVal.bool false),
           ("message", RVal.str "invalid content length")] ∧
      (GetUploadURLHandlerWith f now1 bucketEnv raw).errorField = none) ∧
    (∀ e, decodeBody raw = Except.error e →
      (GetUploadURLHandlerWith f now1 bucketEnv raw).errorField
        = some (RVal.str e)) := by
  constructor
  · intro body hdec hbad
    rw [handlerWith_bad_length f now1 bucketEnv raw body hdec hbad]
    exact ⟨rfl, rfl⟩
  · intro e hdec
    rw [handlerWith_decode_error f now1 bucketEnv raw e hdec]
    rfl

theorem invalid_length_has_no_error_key_witness :
    ((GetUploadURLHandlerWith (fun _ => Except.error "no signer") 0 "bucket"
        (RawBody.json (Json.obj [("content_length", Json.num 0)]))).body
      = [("success", RVal.bool false),
         ("message", RVal.str "invalid content length")] ∧
      (GetUploadURLHandlerWith (fun _ => Except.error "no signer") 0 "bucket"
        (RawBody.json (Json.obj [("content_length", Json.num 0)]))).errorField
      = none) ∧
    (GetUploadURLHandlerWith (fun _ => Except.error "no signer") 0 "bucket"
        (RawBody.malformed "unexpected EOF")).errorField
      = some (RVal.str "unexpected EOF") :=
  ⟨(invalid_length_has_no_error_key (fun _ => Except.error "no signer") 0
      "bucket" (RawBody.json (Json.obj [("content_length", Json.num 0)]))).1
      ⟨0⟩ rfl (Or.inl (by decide)),
   (invalid_length_has_no_error_key (fun _ => Except.error "no signer") 0
      "bucket" (RawBody.malformed "unexpected EOF")).2 "unexpected EOF" rfl⟩

/-- C8: the claim says the details list is the same fixed three-element list
for all valid requests, with a second element stating a 10-minute expiry and
a third element stating the 1048576-byte ceiling. The code instead prints
the Timout duration with a %d verb, yielding its nanosecond count
600000000000, and prints the content_length of the request rather than the
ceiling, so the list varies between requests: evaluated at content_length 5
and at content_length 7, the lists are as below and differ in their third
element. -/
theorem details_depend_on_request :
    ((GetUploadURLHandler ⟨0, "bucket", ⟨"region", false, false, "signed-url", 0⟩⟩
        (RawBody.json (Json.obj [("content_length", Json.num 5)]))).dataField).map
        GeneratePresignedURLResponse.Details
      = some
          ["Use the pre-signed URL to upload the file",
           "The URL will expire after 600000000000 minutes",
           "The maximum upload size is 5 bytes"] ∧
    ((GetUploadURLHandler ⟨0, "bucket", ⟨"region", false, false, "signed-url", 0⟩⟩
        (RawBody.json (Json.obj [("content_length", Json.num 7)]))).dataField).map
        GeneratePresignedURLResponse.Details
      = some
          ["Use the pre-signed URL to upload the file",
           "The URL will expire after 600000000000 minutes",
           "The maximum upload size is 7 bytes"] := by
  exact ⟨rfl, rfl⟩

theorem decodeStep_skip (acc : GeneratePresignedURLBody) (kv : String × Json)
    (h : foldName kv.1 ≠ "content_length") :
    decodeStep acc kv = Except.ok acc := if_neg h

theorem decodeStep_hit (acc : GeneratePresignedURLBody) (kv : String × Json)
    (h : foldName kv.1 = "content_length") :
    decodeStep acc kv = (decodeContentLength kv.2).map (fun n => ⟨n⟩) :=
  if_pos h

/-- Equation lemma: an object decodes by folding decodeStep over its keys. -/
theorem decodeBodyJson_obj (l : List (String × Json)) :
    decodeBodyJson (Json.obj l) = l.foldlM decodeStep ⟨0⟩ := rfl

/-- Folding the decoder over keys none of which case-insensitively matches
content_length leaves the accumulated struct unchanged. -/
theorem foldlM_skips_other_keys (l : List (String × Json))
    (acc : GeneratePresignedURLBody)
    (h : ∀ kv ∈ l, foldName kv.1 ≠ "content_length") :
    l.foldlM decodeStep acc = Except.ok acc := by
  induction l generalizing acc with
  | nil => rfl
  | cons kv rest ih =>
      rw [List.foldlM_cons, decodeStep_skip _ _ (h kv (List.mem_cons_self _ _))]
      exact ih acc (fun kv2 hm => h kv2 (List.mem_cons_of_mem _ hm))

/-- A prefix of keys none of which matches content_length does not affect
the fold. -/
theorem foldlM_front_skipped (l1 l2 : List (String × Json))
    (acc : GeneratePresignedURLBody)
    (h : ∀ kv ∈ l1, foldName kv.1 ≠ "content_length") :
    (l1 ++ l2).foldlM decodeStep acc = l2.foldlM decodeStep acc := by
  induction l1 generalizing acc with
  | nil => rfl
  | cons kv rest ih =>
      rw [List.cons_append, List.foldlM_cons,
        decodeStep_skip _ _ (h kv (List.mem_cons_self _ _))]
      exact ih acc (fun kv2 hm => h kv2 (List.mem_cons_of_mem _ hm))

/-- Decoding an object whose only case-insensitive content_length key holds
the integer n gives the same result as decoding the object holding that key
alone. -/
theorem decode_ignores_other_keys (pre post : List (String × Json)) (n : Int)
    (hpre : ∀ kv ∈ pre, foldName kv.1 ≠ "content_length")
    (hpost : ∀ kv ∈ post, foldName kv.1 ≠ "content_length") :
    decodeBodyJson (Json.obj (pre ++ ("content_length", Json.num n) :: post))
      = decodeBodyJson (Json.obj [("content_length", Json.num n)]) := by
  rw [decodeBodyJson_obj, decodeBodyJson_obj]
  rw [foldlM_front_skipped pre (("content_length", Json.num n) :: post) ⟨0⟩ hpre]
  rw [List.foldlM_cons, List.foldlM_cons,
    decodeStep_hit _ ("content_length", Json.num n) rfl]
  cases hc : decodeContentLength (Json.num n) with
  | error e => rfl
  | ok m =>
      show post.foldlM decodeStep ⟨m⟩ = Except.ok ⟨m⟩
      exact foldlM_skips_other_keys post ⟨m⟩ hpost

/-- C9 as stated is false on the code: encoding/json matches object keys to
the content_length field case-insensitively and the last match wins, so the
extra field CONTENT_LENGTH overrides content_length; with the valid value 1
alone the handler answers 200 while adding the extra field
CONTENT_LENGTH 2000000 makes it answer 400. -/
theorem extra_field_changes_outcome :
    GetUploadURLHandler ⟨0, "bucket", ⟨"region", false, false, "signed-url", 0⟩⟩
        (RawBody.json (Json.obj
          [("content_length", Json.num 1), ("CONTENT_LENGTH", Json.num 2000000)]))
      ≠ GetUploadURLHandler ⟨0, "bucket", ⟨"region", false, false, "signed-url", 0⟩⟩
        (RawBody.json (Json.obj [("content_length", Json.num 1)])) := by
  intro h
  have hs : (400 : Nat) = 200 := congrArg HttpResponse.status h
  exact absurd hs (by decide)

/-- C9, amended: for every request body that decodes successfully, the
response depends only on the decoded content_length value plus clock,
configuration and provider result; extra JSON fields whose names are not
ASCII case-insensitive matches of content_length are ignored: an object
carrying such extra fields around its content_length field yields exactly
the same outcome as the object carrying content_length alone. -/
theorem extra_fields_ignored
    (f : GeneratePresignedURLParam → Except String GeneratePresignedURLResponse)
    (now1 : Nat) (bucketEnv : String) (pre post : List (String × Json))
    (n : Int)
    (hpre : ∀ kv ∈ pre, foldName kv.1 ≠ "content_length")
    (hpost : ∀ kv ∈ post, foldName kv.1 ≠ "content_length") :
    GetUploadURLHandlerWith f now1 bucketEnv
        (RawBody.json (Json.obj (pre ++ ("content_length", Json.num n) :: post)))
      = GetUploadURLHandlerWith f now1 bucketEnv
        (RawBody.json (Json.obj [("content_length", Json.num n)])) := by
  unfold GetUploadURLHandlerWith
  have h : decodeBody (RawBody.json
        (Json.obj (pre ++ ("content_length", Json.num n) :: post)))
      = decodeBody (RawBody.json (Json.obj [("content_length", Json.num n)])) := by
    show decodeBodyJson (Json.obj (pre ++ ("content_length", Json.num n) :: post))
      = decodeBodyJson (Json.obj [("content_length", Json.num n)])
    exact decode_ignores_other_keys pre post n hpre hpost
  rw [h]

theorem extra_fields_ignored_witness :
    GetUploadURLHandlerWith (fun _ => Except.error "no signer") 0 "bucket"
        (RawBody.json (Json.obj
          [("foo", Json.str "bar"), ("content_length", Json.num 5),
           ("content_type", Json.str "text/html")]))
      = GetUploadURLHandlerWith (fun _ => Except.error "no signer") 0 "bucket"
        (RawBody.json (Json.obj [("content_length", Json.num 5)])) :=
  extra_fields_ignored (fun _ => Except.error "no signer") 0 "bucket"
    [("foo", Json.str "bar")] [("content_type", Json.str "text/html")] 5
    (by intro kv hkv; rw [List.mem_singleton] at hkv; rw [hkv]; decide)
    (by intro kv hkv; rw [List.mem_singleton] at hkv; rw [hkv]; decide)

end AwsSignedUrl
